import Mathlib

/-!
Shallow embedding of the shard / delivery-loop core of `oblivion.py`
(class `OblivionGUI`): the delivery unit `_send_webhook`, one iteration of
the per-target loop `_webhook_loop`, the shard lifecycle `_start_shard` /
`_stop_shard`, the coordinator entry points `_start_parallel_mode`,
`_start_sequential_mode`, `_stop_parallel_mode`, `_stop_sequential_mode`,
one poll iteration of the rotation monitor `_monitor_sequential_mode`, and
the runtime effect of `_save_config`.

Machine state is passed explicitly.  The HTTP environment is a function
from attempt index to the response that `requests.post` yields on that
attempt.  Durations are rationals measured in seconds, matching the float
arithmetic of the source on the exact values used here.
-/

/-- Pointwise update of a total map, mirroring Python dict assignment
(`d[k] = v`); reads of missing keys in the source go through `.get(k, d0)`
and are modelled by the map's default values. -/
def upd {β : Type} (f : String → β) (k : String) (v : β) : String → β :=
  fun x => if x = k then v else f x

/-- One HTTP response as seen by `_send_webhook`: a 204 success, a 429
carrying an optional `retry_after` field (milliseconds) in the JSON body,
any other status code, or a raised `requests.RequestException`. -/
inductive Resp where
  | success
  | rateLimited (retry_after : Option ℚ)
  | otherStatus (code : Nat)
  | transportError
  deriving DecidableEq

/-- The JSON body built at the top of `_send_webhook`: `content` always,
`username` and `avatar_url` only when truthy (non-empty). -/
structure Payload where
  content : String
  username : Option String
  avatar_url : Option String
  deriving DecidableEq

/-- Mirrors the payload construction in `_send_webhook` (lines 679-683). -/
def build_payload (message username avatar_url : String) : Payload :=
  { content := message
    username := if username = "" then none else some username
    avatar_url := if avatar_url = "" then none else some avatar_url }

/-- Observable outcome of one `_send_webhook` call: the boolean it
returns, the updated `message_counts` map, the sleeps it performed (in
seconds, in order) and the payloads it posted (one per attempted
request). -/
structure SendResult where
  success : Bool
  counts : String → Nat
  sleeps : List ℚ
  posts : List Payload

/-- The `for attempt in range(self.max_retries)` loop of `_send_webhook`
(lines 687-713).  `fuel` is the number of remaining iterations (invoked
with `fuel = max_retries`, `attempt = 0`, so `fuel = max_retries -
attempt` throughout).  A 204 increments the count of the target URL and
returns `True`; a 429 sleeps `retry_after / 1000` when the field is
present, else `rate_limit_backoff / 1000`, and lets the loop continue; any
other status returns `False` at once; a transport error sleeps the
backoff when `attempt < max_retries - 1` and lets the loop continue.
Falling out of the loop returns `False` ("Max retries reached"). -/
def send_webhook_from (url : String) (p : Payload) (env : Nat → Resp)
    (max_retries : Nat) (backoff : ℚ) :
    Nat → Nat → (String → Nat) → List ℚ → List Payload → SendResult
  | 0, _, counts, sleeps, posts => ⟨false, counts, sleeps, posts⟩
  | fuel+1, attempt, counts, sleeps, posts =>
    match env attempt with
    | Resp.success =>
        ⟨true, upd counts url (counts url + 1), sleeps, posts ++ [p]⟩
    | Resp.rateLimited ra =>
        send_webhook_from url p env max_retries backoff fuel (attempt+1) counts
          (sleeps ++ [(ra.getD backoff) / 1000]) (posts ++ [p])
    | Resp.otherStatus _ => ⟨false, counts, sleeps, posts ++ [p]⟩
    | Resp.transportError =>
        if attempt < max_retries - 1 then
          send_webhook_from url p env max_retries backoff fuel (attempt+1) counts
            (sleeps ++ [backoff]) (posts ++ [p])
        else
          send_webhook_from url p env max_retries backoff fuel (attempt+1) counts
            sleeps (posts ++ [p])

/-- `_send_webhook` on a given counts map: run the attempt loop from
attempt 0 with `max_retries` iterations available. -/
def send_webhook (url : String) (p : Payload) (env : Nat → Resp)
    (max_retries : Nat) (backoff : ℚ) (counts : String → Nat) : SendResult :=
  send_webhook_from url p env max_retries backoff max_retries 0 counts [] []

/-- The arguments captured by `_start_shard` for one `_webhook_loop`
thread (lines 735-739): target URL plus the payload/delay snapshot read
from the settings variables at start time, and the owning shard name. -/
structure UnitTask where
  url : String
  message : String
  username : String
  avatar_url : String
  delay : ℚ
  shard : String
  deriving DecidableEq

/-- The mutable state of `OblivionGUI` relevant to the core: shard status
flags, the per-URL message counts, the thread registry, the current
sequential-mode shard, the four runtime policy values, and the four
settings variables snapshotted at shard start. -/
structure SysState where
  shard_status : String → Bool
  message_counts : String → Nat
  threads : String → List UnitTask
  current_switch_shard : Option String
  max_retries : Nat
  rate_limit_backoff : ℚ
  message_limit : Nat
  total_pings : Nat
  message_var : String
  username_var : String
  avatar_var : String
  delay_var : ℚ

/-- The values a `_save_config` call writes: the settings variables and
the four runtime policy fields (lines 659-671). -/
structure Settings where
  message : String
  username : String
  avatar_url : String
  delay : ℚ
  rate_limit_backoff : ℚ
  max_retries : Nat
  message_limit : Nat
  total_pings : Nat

/-- Runtime effect of `_save_config`: the settings variables hold the
edited values and the runtime policy fields `rate_limit_backoff`,
`max_retries`, `message_limit`, `total_pings` are refreshed from them. -/
def save_config (st : SysState) (s : Settings) : SysState :=
  { st with
      message_var := s.message
      username_var := s.username
      avatar_var := s.avatar_url
      delay_var := s.delay
      rate_limit_backoff := s.rate_limit_backoff
      max_retries := s.max_retries
      message_limit := s.message_limit
      total_pings := s.total_pings }

/-- `self.webhook_groups[shard]` (total version; call sites in the source
only use shard names present in the map). -/
def lookup_urls (groups : List (String × List String)) (shard : String) :
    List String :=
  match groups.lookup shard with
  | some urls => urls
  | none => []

/-- The `while` condition of `_webhook_loop` (line 718): the owning
shard's flag is set and the target's count is below the live
`message_limit`. -/
def loop_guard (st : SysState) (t : UnitTask) : Bool :=
  st.shard_status t.shard && decide (st.message_counts t.url < st.message_limit)

/-- One iteration of `_webhook_loop` (lines 718-720): when the guard
holds, call `_send_webhook` with the snapshotted payload and the live
`max_retries` / `rate_limit_backoff`, then sleep the snapshotted delay
(time only, no state change). -/
def webhook_loop_step (st : SysState) (t : UnitTask) (env : Nat → Resp) :
    SysState :=
  if loop_guard st t then
    { st with message_counts :=
        (send_webhook t.url (build_payload t.message t.username t.avatar_url)
          env st.max_retries st.rate_limit_backoff st.message_counts).counts }
  else st

/-- The payloads posted during one `_webhook_loop` iteration. -/
def cycle_posts (st : SysState) (t : UnitTask) (env : Nat → Resp) :
    List Payload :=
  if loop_guard st t then
    (send_webhook t.url (build_payload t.message t.username t.avatar_url)
      env st.max_retries st.rate_limit_backoff st.message_counts).posts
  else []

/-- The `self.message_counts[url] = self.message_counts.get(url, 0)`
initialisation fold of `_start_shard` (lines 732-734). -/
def init_counts (counts : String → Nat) (urls : List String) : String → Nat :=
  urls.foldl (fun c u => upd c u (c u)) counts

/-- `_start_shard` (lines 722-742): set the running flag, register one
delivery task per target URL carrying a snapshot of the current settings
variables, and run the count-initialisation fold. -/
def start_shard (groups : List (String × List String)) (st : SysState)
    (shard : String) : SysState :=
  { st with
      shard_status := upd st.shard_status shard true
      threads := upd st.threads shard
        ((lookup_urls groups shard).map fun u =>
          UnitTask.mk u st.message_var st.username_var st.avatar_var
            st.delay_var shard)
      message_counts := init_counts st.message_counts (lookup_urls groups shard) }

/-- `_stop_shard` (lines 744-754): return at once when the shard is not
marked running; otherwise clear the flag, join the threads (time only),
and clear the registry entry. -/
def stop_shard (st : SysState) (shard : String) : SysState :=
  if st.shard_status shard then
    { st with
        shard_status := upd st.shard_status shard false
        threads := upd st.threads shard [] }
  else st

/-- `any(self.shard_status.values())`: the status dict is keyed by the
shard names of the webhook-group map. -/
def any_running (groups : List (String × List String)) (st : SysState) : Bool :=
  (groups.map Prod.fst).any fun s => st.shard_status s

/-- `_start_parallel_mode` (lines 763-774): reject an empty selection,
reject when any selected shard is already running, otherwise start every
selected shard.  The second component is the message box text shown on
rejection. -/
def start_parallel_mode (groups : List (String × List String)) (st : SysState)
    (selected : List String) : SysState × Option String :=
  if selected.isEmpty then (st, some "Select at least one shard")
  else if selected.any (fun s => st.shard_status s) then
    (st, some "One or more selected shards are already running")
  else (selected.foldl (start_shard groups) st, none)

/-- `_start_sequential_mode` (lines 776-788): reject when any shard at
all is running, reject an empty selection, otherwise record the active
shard and start it (the monitor thread is spawned alongside; its steps
are `monitor_sequential_step`). -/
def start_sequential_mode (groups : List (String × List String))
    (st : SysState) (shard_name : String) : SysState × Option String :=
  if any_running groups st then (st, some "A shard is already running")
  else if shard_name = "" then (st, some "Select a starting shard")
  else
    (start_shard groups { st with current_switch_shard := some shard_name }
      shard_name, none)

/-- `sum(self.message_counts.get(url, 0) for url in webhook_urls)` for a
shard's target list (line 795). -/
def rotation_sum (groups : List (String × List String)) (st : SysState)
    (shard : String) : Nat :=
  ((lookup_urls groups shard).map st.message_counts).sum

/-- `shard_names[(shard_names.index(cur) + 1) % len(shard_names)]`
(lines 800-802): the successor of `cur` in the fixed cyclic ordering of
the shard map. -/
def next_shard (groups : List (String × List String)) (cur : String) : String :=
  (groups.map Prod.fst).getD
    (((groups.map Prod.fst).indexOf cur + 1) % (groups.map Prod.fst).length) cur

/-- One poll iteration of `_monitor_sequential_mode` (lines 790-805):
while the active shard is running, sum its targets' counts; on reaching
`total_pings`, stop the active shard, advance `current_switch_shard`
cyclically, and start the new shard. -/
def monitor_sequential_step (groups : List (String × List String))
    (st : SysState) : SysState :=
  match st.current_switch_shard with
  | none => st
  | some cur =>
    if st.shard_status cur then
      if st.total_pings ≤ rotation_sum groups st cur then
        start_shard groups
          { stop_shard st cur with
              current_switch_shard := some (next_shard groups cur) }
          (next_shard groups cur)
      else st
    else st

/-- `_stop_parallel_mode` (lines 823-832): reject when no selected shard
is running, otherwise stop every selected shard. -/
def stop_parallel_mode (st : SysState) (selected : List String) :
    SysState × Option String :=
  if !(selected.any fun s => st.shard_status s) then
    (st, some "No selected shards are running")
  else (selected.foldl stop_shard st, none)

/-- `_stop_sequential_mode` (lines 834-843): reject when the active shard
is not running (a missing active shard reads as not running), otherwise
stop it and clear `current_switch_shard`. -/
def stop_sequential_mode (st : SysState) : SysState × Option String :=
  match st.current_switch_shard with
  | none => (st, some "No shard is running")
  | some cur =>
    if st.shard_status cur then
      ({ stop_shard st cur with current_switch_shard := none }, none)
    else (st, some "No shard is running")

/-- Every state-changing operation of the core, for stating invariants
quantified over the whole interface. -/
inductive Op where
  | start_shard_op (s : String)
  | stop_shard_op (s : String)
  | start_parallel (sel : List String)
  | stop_parallel (sel : List String)
  | start_seq (s : String)
  | stop_seq
  | monitor
  | cycle (t : UnitTask) (env : Nat → Resp)
  | save (cfg : Settings)

/-- Interpretation of one operation on the state. -/
def apply_op (groups : List (String × List String)) : Op → SysState → SysState
  | Op.start_shard_op s, st => start_shard groups st s
  | Op.stop_shard_op s, st => stop_shard st s
  | Op.start_parallel sel, st => (start_parallel_mode groups st sel).1
  | Op.stop_parallel sel, st => (stop_parallel_mode st sel).1
  | Op.start_seq s, st => (start_sequential_mode groups st s).1
  | Op.stop_seq, st => (stop_sequential_mode st).1
  | Op.monitor, st => monitor_sequential_step groups st
  | Op.cycle t env, st => webhook_loop_step st t env
  | Op.save cfg, st => save_config st cfg

/-- The operations available while the application is in Sequential mode
(the Start/Kill buttons dispatch to the sequential entry points; shard
loops, the monitor and config saves run in the background). -/
inductive SeqOp where
  | start_seq (s : String)
  | stop_seq
  | monitor
  | cycle (t : UnitTask) (env : Nat → Resp)
  | save (cfg : Settings)

/-- Interpretation of one sequential-mode operation. -/
def apply_seq_op (groups : List (String × List String)) :
    SeqOp → SysState → SysState
  | SeqOp.start_seq s, st => (start_sequential_mode groups st s).1
  | SeqOp.stop_seq, st => (stop_sequential_mode st).1
  | SeqOp.monitor, st => monitor_sequential_step groups st
  | SeqOp.cycle t env, st => webhook_loop_step st t env
  | SeqOp.save cfg, st => save_config st cfg

/-- Only shard names of the webhook-group map ever carry a set running
flag (the status dict is created with exactly those keys). -/
def OnlyGroupShards (groups : List (String × List String)) (st : SysState) :
    Prop :=
  ∀ s, st.shard_status s = true → s ∈ groups.map Prod.fst

/-- At most one shard is marked running. -/
def AtMostOneRunning (st : SysState) : Prop :=
  ∀ s1 s2, st.shard_status s1 = true → st.shard_status s2 = true → s1 = s2

/-- The Sequential-mode coordinator invariant. -/
def SeqInv (groups : List (String × List String)) (st : SysState) : Prop :=
  OnlyGroupShards groups st ∧ AtMostOneRunning st

/-- Side condition on a sequential-mode operation: a start request names
a shard of the map (the starting-shard combobox only offers those). -/
def seq_op_ok (groups : List (String × List String)) : SeqOp → Prop
  | SeqOp.start_seq s => s ∈ groups.map Prod.fst
  | _ => True

/-! Concrete instances used by witnesses and counterexamples. -/

/-- The state right after `__init__` with the shipped `DEFAULT_CONFIG`:
no shard running, no counts, no threads, no active sequential shard. -/
def default_state : SysState :=
  { shard_status := fun _ => false
    message_counts := fun _ => 0
    threads := fun _ => []
    current_switch_shard := none
    max_retries := 3
    rate_limit_backoff := 60
    message_limit := 9000
    total_pings := 450000
    message_var := "@everyone"
    username_var := "Oblivion V1"
    avatar_var := ""
    delay_var := 5/2 }

/-- Environment in which every request is answered 204. -/
def env204 : Nat → Resp := fun _ => Resp.success

/-- Environment in which every request is answered 429 with
`retry_after = 2000` in the body. -/
def env429_2000 : Nat → Resp := fun _ => Resp.rateLimited (some 2000)

/-- Environment in which every request is answered 429 without a
`retry_after` field. -/
def env429_none : Nat → Resp := fun _ => Resp.rateLimited none

/-- Environment: a single 429 (with `retry_after = 2000`) on the first
attempt, then 204 on every later attempt. -/
def env429_once : Nat → Resp :=
  fun n => if n = 0 then Resp.rateLimited (some 2000) else Resp.success

/-- Environment in which every request raises a transport error. -/
def env_fail : Nat → Resp := fun _ => Resp.transportError

/-- The default payload body. -/
def payload0 : Payload := build_payload "@everyone" "Oblivion V1" ""

/-- A single shard with two targets, for the end-to-end scenario. -/
def groups3 : List (String × List String) := [("s", ["a", "b"])]

/-- Configuration for the end-to-end scenario: per-target cap 3 and
delay 0. -/
def st3_0 : SysState := { default_state with message_limit := 3, delay_var := 0 }

/-- The delivery task `_start_shard` registers for target `a`. -/
def task_a : UnitTask :=
  { url := "a", message := "@everyone", username := "Oblivion V1"
    avatar_url := "", delay := 0, shard := "s" }

/-- The delivery task `_start_shard` registers for target `b`. -/
def task_b : UnitTask := { task_a with url := "b" }

/-- The end-to-end scenario after `_start_parallel_mode` on the single
shard. -/
def st3_started : SysState := (start_parallel_mode groups3 st3_0 ["s"]).1

/-- The end-to-end scenario after every delivery loop has run to
completion: three successful cycles for each of the two targets. -/
def st3_end : SysState :=
  webhook_loop_step
    (webhook_loop_step
      (webhook_loop_step
        (webhook_loop_step
          (webhook_loop_step
            (webhook_loop_step st3_started task_a env204) task_a env204)
          task_a env204)
        task_b env204)
      task_b env204)
    task_b env204

/-- Two shards with one target each, for the rotation scenario. -/
def groups2 : List (String × List String) := [("A", ["wa"]), ("B", ["wb"])]

/-- Sequential-mode state with shard `A` active and its target already at
the threshold of 10 pings. -/
def st5 : SysState :=
  { default_state with
      shard_status := fun s => s == "A"
      current_switch_shard := some "A"
      total_pings := 10
      message_counts := fun u => if u == "wa" then 10 else 0 }

/-- A config save that drops the per-target cap to 0 while a shard is
running. -/
def cfg_low : Settings :=
  { message := "@everyone", username := "Oblivion V1", avatar_url := ""
    delay := 0, rate_limit_backoff := 60, max_retries := 3
    message_limit := 0, total_pings := 450000 }

/-- Two shards sharing the target URL `a`. -/
def groups10 : List (String × List String) := [("s1", ["a"]), ("s2", ["a", "b"])]

/-- A delivery task of shard `s1` for the shared URL `a`. -/
def task_s1a : UnitTask :=
  { url := "a", message := "m1", username := "", avatar_url := ""
    delay := 0, shard := "s1" }

/-- A delivery task of shard `s2` for the same shared URL `a`. -/
def task_s2a : UnitTask := { task_s1a with message := "m2", shard := "s2" }

/-- State with both sharing shards running. -/
def st10 : SysState :=
  { default_state with
      shard_status := fun s => s == "s1" || s == "s2"
      message_limit := 5 }

/-! Helper lemmas about maps and the delivery unit. -/

/-- Updating a key with its own value is the identity. -/
theorem upd_self {β : Type} (f : String → β) (k : String) : upd f k (f k) = f := by
  funext x
  by_cases h : x = k <;> simp [upd, h]

/-- Reading the updated key. -/
theorem upd_same {β : Type} (f : String → β) (k : String) (v : β) :
    upd f k v k = v := by
  simp [upd]

/-- Reading another key. -/
theorem upd_other {β : Type} (f : String → β) (k : String) (v : β) (x : String)
    (h : x ≠ k) : upd f k v x = f x := by
  simp [upd, h]

/-- The count-initialisation fold of `_start_shard` does not change the
counts map. -/
theorem init_counts_eq (counts : String → Nat) (urls : List String) :
    init_counts counts urls = counts := by
  induction urls generalizing counts with
  | nil => rfl
  | cons u us ih =>
    show init_counts (upd counts u (counts u)) us = counts
    rw [upd_self]
    exact ih counts

/-- `_start_shard` leaves the counts map unchanged. -/
theorem start_shard_counts (groups : List (String × List String))
    (st : SysState) (shard : String) :
    (start_shard groups st shard).message_counts = st.message_counts := by
  simp [start_shard, init_counts_eq]

/-- The counts map after the `_send_webhook` attempt loop is either
untouched or the single increment of the target URL. -/
theorem send_from_counts_cases (url : String) (p : Payload) (env : Nat → Resp)
    (m : Nat) (b : ℚ) :
    ∀ fuel attempt counts sleeps posts,
      (send_webhook_from url p env m b fuel attempt counts sleeps posts).counts
          = counts
      ∨ (send_webhook_from url p env m b fuel attempt counts sleeps posts).counts
          = upd counts url (counts url + 1) := by
  intro fuel
  induction fuel with
  | zero => intro attempt counts sleeps posts; exact Or.inl rfl
  | succ n ih =>
    intro attempt counts sleeps posts
    rcases h : env attempt with _ | ra | c | _
    · right
      simp [send_webhook_from, h]
    · simpa only [send_webhook_from, h] using ih (attempt+1) counts _ _
    · left
      simp [send_webhook_from, h]
    · by_cases hlt : attempt < m - 1
      · simpa only [send_webhook_from, h, hlt, if_true] using
          ih (attempt+1) counts _ _
      · simpa only [send_webhook_from, h, hlt, if_false] using
          ih (attempt+1) counts _ _

/-- The counts map produced by the attempt loop does not depend on the
payload or on the sleep/post accumulators. -/
theorem send_from_counts_payload_irrel (url : String) (p q : Payload)
    (env : Nat → Resp) (m : Nat) (b : ℚ) :
    ∀ fuel attempt counts s1 p1 s2 p2,
      (send_webhook_from url p env m b fuel attempt counts s1 p1).counts
        = (send_webhook_from url q env m b fuel attempt counts s2 p2).counts := by
  intro fuel
  induction fuel with
  | zero => intro attempt counts s1 p1 s2 p2; rfl
  | succ n ih =>
    intro attempt counts s1 p1 s2 p2
    rcases h : env attempt with _ | ra | c | _
    · simp [send_webhook_from, h]
    · simpa only [send_webhook_from, h] using ih (attempt+1) counts _ _ _ _
    · simp [send_webhook_from, h]
    · by_cases hlt : attempt < m - 1
      · simpa only [send_webhook_from, h, hlt, if_true] using
          ih (attempt+1) counts _ _ _ _
      · simpa only [send_webhook_from, h, hlt, if_false] using
          ih (attempt+1) counts _ _ _ _

/-- A returned `True` means exactly one increment of the target URL. -/
theorem send_from_success_counts (url : String) (p : Payload) (env : Nat → Resp)
    (m : Nat) (b : ℚ) :
    ∀ fuel attempt counts sleeps posts,
      (send_webhook_from url p env m b fuel attempt counts sleeps posts).success
          = true →
      (send_webhook_from url p env m b fuel attempt counts sleeps posts).counts
          = upd counts url (counts url + 1) := by
  intro fuel
  induction fuel with
  | zero =>
    intro attempt counts sleeps posts h
    exact absurd h (by simp [send_webhook_from])
  | succ n ih =>
    intro attempt counts sleeps posts h
    rcases he : env attempt with _ | ra | c | _
    · simp [send_webhook_from, he]
    · rw [send_webhook_from, he] at h ⊢
      exact ih (attempt+1) counts _ _ h
    · rw [send_webhook_from, he] at h
      exact absurd h (by simp)
    · by_cases hlt : attempt < m - 1
      · rw [send_webhook_from, he, if_pos hlt] at h ⊢
        exact ih (attempt+1) counts _ _ h
      · rw [send_webhook_from, he, if_neg hlt] at h ⊢
        exact ih (attempt+1) counts _ _ h

/-- When no attempt is answered 204 the call fails and the counts map is
untouched. -/
theorem send_from_no_success (url : String) (p : Payload) (env : Nat → Resp)
    (m : Nat) (b : ℚ) (hno : ∀ i, env i ≠ Resp.success) :
    ∀ fuel attempt counts sleeps posts,
      (send_webhook_from url p env m b fuel attempt counts sleeps posts).success
          = false
      ∧ (send_webhook_from url p env m b fuel attempt counts sleeps posts).counts
          = counts := by
  intro fuel
  induction fuel with
  | zero => intro attempt counts sleeps posts; exact ⟨rfl, rfl⟩
  | succ n ih =>
    intro attempt counts sleeps posts
    rcases he : env attempt with _ | ra | c | _
    · exact absurd he (hno attempt)
    · rw [send_webhook_from, he]
      exact ih (attempt+1) counts _ _
    · rw [send_webhook_from, he]
      exact ⟨rfl, rfl⟩
    · by_cases hlt : attempt < m - 1
      · rw [send_webhook_from, he, if_pos hlt]
        exact ih (attempt+1) counts _ _
      · rw [send_webhook_from, he, if_neg hlt]
        exact ih (attempt+1) counts _ _

/-- When every attempt is rate-limited the loop runs through all its
iterations — each 429 consumes one — and then fails with the counts map
untouched, having slept once per iteration. -/
theorem send_from_all429 (url : String) (p : Payload) (env : Nat → Resp)
    (m : Nat) (b : ℚ) (h429 : ∀ i, ∃ r, env i = Resp.rateLimited r) :
    ∀ fuel attempt counts sleeps posts,
      (send_webhook_from url p env m b fuel attempt counts sleeps posts).success
          = false
      ∧ (send_webhook_from url p env m b fuel attempt counts sleeps posts).counts
          = counts
      ∧ (send_webhook_from url p env m b fuel attempt counts sleeps posts).sleeps.length
          = sleeps.length + fuel := by
  intro fuel
  induction fuel with
  | zero => intro attempt counts sleeps posts; exact ⟨rfl, rfl, rfl⟩
  | succ n ih =>
    intro attempt counts sleeps posts
    obtain ⟨r, hr⟩ := h429 attempt
    rw [send_webhook_from, hr]
    obtain ⟨h1, h2, h3⟩ :=
      ih (attempt+1) counts (sleeps ++ [(r.getD b) / 1000]) (posts ++ [p])
    refine ⟨h1, h2, ?_⟩
    rw [h3, List.length_append]
    simp
    omega

/-- Every payload the attempt loop posts is the payload it was given. -/
theorem send_from_posts_mem (url : String) (p : Payload) (env : Nat → Resp)
    (m : Nat) (b : ℚ) :
    ∀ fuel attempt counts sleeps posts,
      (∀ q ∈ posts, q = p) →
      ∀ q ∈ (send_webhook_from url p env m b fuel attempt counts sleeps posts).posts,
        q = p := by
  intro fuel
  induction fuel with
  | zero => intro attempt counts sleeps posts hq; exact hq
  | succ n ih =>
    intro attempt counts sleeps posts hq
    have hq2 : ∀ q ∈ posts ++ [p], q = p := by
      intro q hmem
      rcases List.mem_append.1 hmem with hl | hl
      · exact hq q hl
      · simpa using hl
    rcases he : env attempt with _ | ra | c | _
    · rw [send_webhook_from, he]
      exact hq2
    · rw [send_webhook_from, he]
      exact ih (attempt+1) counts _ _ hq2
    · rw [send_webhook_from, he]
      exact hq2
    · by_cases hlt : attempt < m - 1
      · rw [send_webhook_from, he, if_pos hlt]
        exact ih (attempt+1) counts _ _ hq2
      · rw [send_webhook_from, he, if_neg hlt]
        exact ih (attempt+1) counts _ _ hq2

/-- The counts map can only grow pointwise across one `_send_webhook`. -/
theorem send_counts_mono (url : String) (p : Payload) (env : Nat → Resp)
    (m : Nat) (b : ℚ) (counts : String → Nat) (u : String) :
    counts u ≤ (send_webhook url p env m b counts).counts u := by
  rcases send_from_counts_cases url p env m b m 0 counts [] [] with h | h <;>
    rw [send_webhook, h]
  by_cases hu : u = url <;> simp [upd, hu]

/-! Helper lemmas about the shard lifecycle and the coordinator. -/

/-- A loop iteration only ever touches the counts map. -/
theorem webhook_loop_step_status (st : SysState) (t : UnitTask)
    (env : Nat → Resp) :
    (webhook_loop_step st t env).shard_status = st.shard_status := by
  unfold webhook_loop_step
  by_cases h : loop_guard st t <;> simp [h]

/-- A loop iteration keeps the live policy fields. -/
theorem webhook_loop_step_limit (st : SysState) (t : UnitTask)
    (env : Nat → Resp) :
    (webhook_loop_step st t env).message_limit = st.message_limit := by
  unfold webhook_loop_step
  by_cases h : loop_guard st t <;> simp [h]

/-- `_start_shard` sets exactly the started shard's flag. -/
theorem start_shard_status (groups : List (String × List String))
    (st : SysState) (shard : String) :
    (start_shard groups st shard).shard_status = upd st.shard_status shard true :=
  rfl

/-- On a running shard, `_stop_shard` clears exactly that shard's flag. -/
theorem stop_shard_status_of_run (st : SysState) (cur : String)
    (h : st.shard_status cur = true) :
    (stop_shard st cur).shard_status = upd st.shard_status cur false := by
  unfold stop_shard
  rw [if_pos h]

/-- `_stop_shard` never changes the counts map. -/
theorem stop_shard_counts (st : SysState) (shard : String) :
    (stop_shard st shard).message_counts = st.message_counts := by
  unfold stop_shard
  by_cases h : st.shard_status shard <;> simp [h]

/-- Starting a cohort of shards leaves the counts map unchanged. -/
theorem foldl_start_counts (groups : List (String × List String))
    (sel : List String) :
    ∀ st : SysState,
      (sel.foldl (start_shard groups) st).message_counts = st.message_counts := by
  induction sel with
  | nil => intro st; rfl
  | cons s rest ih =>
    intro st
    calc (List.foldl (start_shard groups) (start_shard groups st s) rest).message_counts
        = (start_shard groups st s).message_counts := ih _
      _ = st.message_counts := start_shard_counts groups st s

/-- Stopping a cohort of shards leaves the counts map unchanged. -/
theorem foldl_stop_counts (sel : List String) :
    ∀ st : SysState,
      (sel.foldl stop_shard st).message_counts = st.message_counts := by
  induction sel with
  | nil => intro st; rfl
  | cons s rest ih =>
    intro st
    calc (List.foldl stop_shard (stop_shard st s) rest).message_counts
        = (stop_shard st s).message_counts := ih _
      _ = st.message_counts := stop_shard_counts st s

/-- A rotation-monitor poll leaves the counts map unchanged. -/
theorem monitor_counts (groups : List (String × List String)) (st : SysState) :
    (monitor_sequential_step groups st).message_counts = st.message_counts := by
  unfold monitor_sequential_step
  rcases hc : st.current_switch_shard with _ | cur
  · rfl
  · by_cases h1 : st.shard_status cur
    · by_cases h2 : st.total_pings ≤ rotation_sum groups st cur
      · simp only [h1, h2, if_true]
        rw [start_shard_counts]
        exact stop_shard_counts st cur
      · simp [h1, h2]
    · simp [h1]

/-- Incrementing one key raises the sum over a URL list by the number of
occurrences of that key. -/
theorem sum_map_upd_succ (f : String → Nat) (u : String) (l : List String) :
    (l.map (upd f u (f u + 1))).sum = (l.map f).sum + l.count u := by
  induction l with
  | nil => simp
  | cons a l ih =>
    by_cases h : a = u
    · subst h
      simp [upd_same, List.count_cons, ih]
      omega
    · simp [upd_other f u _ a h, List.count_cons, h, ih]
      omega

/-- An in-range `getD` read returns an element of the list. -/
theorem getD_mem {α : Type} (l : List α) (n : Nat) (d : α)
    (h : n < l.length) : l.getD n d ∈ l := by
  induction l generalizing n with
  | nil => simp at h
  | cons a l ih =>
    cases n with
    | zero => simp [List.getD]
    | succ k =>
      have hk : k < l.length := by simpa using h
      simpa [List.getD] using Or.inr (by simpa [List.getD] using ih k hk)

/-- The cyclic successor of a shard of the map is again a shard of the
map. -/
theorem next_shard_mem (groups : List (String × List String)) (cur : String)
    (h : cur ∈ groups.map Prod.fst) :
    next_shard groups cur ∈ groups.map Prod.fst := by
  have hlen : 0 < (groups.map Prod.fst).length := List.length_pos.2 (by
    intro hnil
    rw [hnil] at h
    exact absurd h (List.not_mem_nil cur))
  exact getD_mem _ _ _ (Nat.mod_lt _ hlen)

/-! Claim C1. -/

/-- Claim C1 counterexample: with `max_retries = 1`, a single 429 on the
first attempt makes the whole delivery cycle return failure with no
message sent, even though the very next request would have been a 204 —
so a rate-limited response does consume the max-retries budget and can
abandon the cycle; raising the budget to 2 lets the retry succeed. -/
theorem c1_counterexample :
    (send_webhook "u" payload0 env429_once 1 60 (fun _ => 0)).success = false
    ∧ (send_webhook "u" payload0 env429_once 1 60 (fun _ => 0)).counts "u" = 0
    ∧ (send_webhook "u" payload0 env429_once 2 60 (fun _ => 0)).success = true :=
  ⟨by decide, by decide, by decide⟩

/-- Claim C1 (amended): a 429 never makes the delivery cycle return
immediately — the cycle sleeps the indicated duration and proceeds to the
next attempt of the same cycle — but each 429 consumes one attempt of the
max-retries budget: a cycle whose every attempt is rate-limited performs
exactly `max_retries` attempts (sleeping once per attempt) and then
returns failure with the counts untouched. -/
theorem c1_amended_rate_limit (url : String) (p : Payload) (env : Nat → Resp)
    (max_retries : Nat) (backoff : ℚ) (counts : String → Nat)
    (fuel attempt : Nat) (sleeps : List ℚ) (posts : List Payload)
    (h : ∀ i, ∃ r, env i = Resp.rateLimited r) :
    (∃ ra, env attempt = Resp.rateLimited ra ∧
      send_webhook_from url p env max_retries backoff (fuel+1) attempt counts
          sleeps posts
        = send_webhook_from url p env max_retries backoff fuel (attempt+1) counts
            (sleeps ++ [(ra.getD backoff) / 1000]) (posts ++ [p]))
    ∧ (send_webhook url p env max_retries backoff counts).success = false
    ∧ (send_webhook url p env max_retries backoff counts).counts = counts
    ∧ (send_webhook url p env max_retries backoff counts).sleeps.length
        = max_retries := by
  obtain ⟨r, hr⟩ := h attempt
  obtain ⟨h1, h2, h3⟩ :=
    send_from_all429 url p env max_retries backoff h max_retries 0 counts [] []
  refine ⟨⟨r, hr, ?_⟩, h1, h2, ?_⟩
  · rw [send_webhook_from, hr]
  · rw [send_webhook] at *
    simpa using h3

/-- Claim C1 witness: the amended statement evaluated on an environment
answering 429 with `retry_after = 2000` forever, budget 3. -/
theorem c1_amended_witness :
    (∃ ra, env429_2000 0 = Resp.rateLimited ra ∧
      send_webhook_from "u" payload0 env429_2000 3 60 3 0 (fun _ => 0) [] []
        = send_webhook_from "u" payload0 env429_2000 3 60 2 1 (fun _ => 0)
            ([] ++ [(ra.getD 60) / 1000]) ([] ++ [payload0]))
    ∧ (send_webhook "u" payload0 env429_2000 3 60 (fun _ => 0)).success = false
    ∧ (send_webhook "u" payload0 env429_2000 3 60 (fun _ => 0)).counts
        = (fun _ => 0)
    ∧ (send_webhook "u" payload0 env429_2000 3 60 (fun _ => 0)).sleeps.length
        = 3 :=
  c1_amended_rate_limit "u" payload0 env429_2000 3 60 (fun _ => 0) 2 0 [] []
    (fun _ => ⟨some 2000, rfl⟩)

/-! Claim C2. -/

/-- Claim C2: when the 429 body carries `retry_after = 2000` the unit
sleeps 2 seconds (milliseconds converted to seconds), as the claim says;
but when the field is absent the code sleeps
`rate_limit_backoff / 1000` = 3/50 s — not the configured 60 s default —
because the division by 1000 is applied to the fallback as well,
contradicting the config comment that the backoff is a wait in seconds. -/
theorem c2_backoff_divided :
    (send_webhook "u" payload0 env429_2000 1 60 (fun _ => 0)).sleeps = [2]
    ∧ (send_webhook "u" payload0 env429_none 1 60 (fun _ => 0)).sleeps = [3/50]
    ∧ (3/50 : ℚ) ≠ 60 := by
  refine ⟨?_, ?_, by norm_num⟩
  · simp [send_webhook, send_webhook_from, env429_2000]
    norm_num
  · simp [send_webhook, send_webhook_from, env429_none]
    norm_num

/-! Claim C3. -/

/-- Claim C3 counterexample: single shard `s` with targets `a`, `b`, cap
3, delay 0, every attempt a 204.  After the two delivery loops run to
completion both counts are 3, but the shard still reports `running =
true` — no code path clears the flag when the loops terminate on the cap,
so the claimed self-reported `running = false` (and the claimed iff
between the flag and active loops) fails. -/
theorem c3_counterexample :
    st3_started.threads "s" = [task_a, task_b]
    ∧ st3_end.message_counts "a" = 3
    ∧ st3_end.message_counts "b" = 3
    ∧ st3_end.shard_status "s" = true :=
  ⟨by decide, by decide, by decide, by decide⟩

/-- Claim C3 (amended): in the end-to-end scenario both targets reach
count 3 and both delivery-loop guards are false (the loops have
terminated on the cap), but the shard's running flag remains true; it
only becomes false through an explicit stop call. -/
theorem c3_amended_flag_persists :
    st3_end.message_counts "a" = 3
    ∧ st3_end.message_counts "b" = 3
    ∧ loop_guard st3_end task_a = false
    ∧ loop_guard st3_end task_b = false
    ∧ st3_end.shard_status "s" = true
    ∧ (stop_shard st3_end "s").shard_status "s" = false :=
  ⟨by decide, by decide, by decide, by decide, by decide, by decide⟩

/-! Claim C5. -/

/-- Claim C5: when the active sequential shard is running and the sum of
its targets' counts has reached `total_pings`, one monitor poll stops the
active shard (flag cleared, registry emptied), advances
`current_switch_shard` to the cyclic successor in the shard map, and
starts that shard; with a single-shard map the successor is the same
shard, which is restarted. -/
theorem c5_rotation_advance (groups : List (String × List String))
    (st : SysState) (cur next : String)
    (hcur : st.current_switch_shard = some cur)
    (hrun : st.shard_status cur = true)
    (hsum : st.total_pings ≤ rotation_sum groups st cur)
    (hnext : next = next_shard groups cur) :
    (monitor_sequential_step groups st).current_switch_shard = some next
    ∧ (monitor_sequential_step groups st).shard_status next = true
    ∧ (cur ≠ next → (monitor_sequential_step groups st).shard_status cur = false)
    ∧ (cur ≠ next → (monitor_sequential_step groups st).threads cur = [])
    ∧ (groups.map Prod.fst = [cur] → next = cur) := by
  subst hnext
  have hstep : monitor_sequential_step groups st
      = start_shard groups
          { stop_shard st cur with
              current_switch_shard := some (next_shard groups cur) }
          (next_shard groups cur) := by
    unfold monitor_sequential_step
    rw [hcur]
    simp [hrun, hsum]
  refine ⟨?_, ?_, ?_, ?_, ?_⟩
  · rw [hstep]
    rfl
  · rw [hstep, start_shard_status]
    exact upd_same _ _ _
  · intro hne
    rw [hstep, start_shard_status, upd_other _ _ _ _ hne]
    show (stop_shard st cur).shard_status cur = false
    unfold stop_shard
    simp [hrun, upd_same]
  · intro hne
    rw [hstep]
    show upd _ (next_shard groups cur) _ cur = []
    rw [upd_other _ _ _ _ hne]
    show (stop_shard st cur).threads cur = []
    unfold stop_shard
    simp [hrun, upd_same]
  · intro h1
    unfold next_shard
    rw [h1]
    simp [List.getD]

/-- Claim C5 witness: two shards `A`, `B`, threshold 10, shard `A` active
with its single target at 10 — one poll hands off from `A` to `B`. -/
theorem c5_witness :
    (monitor_sequential_step groups2 st5).current_switch_shard = some "B"
    ∧ (monitor_sequential_step groups2 st5).shard_status "B" = true
    ∧ ("A" ≠ "B" → (monitor_sequential_step groups2 st5).shard_status "A" = false)
    ∧ ("A" ≠ "B" → (monitor_sequential_step groups2 st5).threads "A" = [])
    ∧ (groups2.map Prod.fst = ["A"] → "B" = "A") :=
  c5_rotation_advance groups2 st5 "A" "B" rfl (by decide) (by decide) (by decide)

/-! Claim C7. -/

/-- Claim C7: a parallel start request whose selection contains an
already-running shard is rejected with the "already running" warning and
leaves the state — in particular every shard's registry of delivery-unit
tasks — completely unchanged, so units are never doubled. -/
theorem c7_start_running_rejected (groups : List (String × List String))
    (st : SysState) (selected : List String) (s : String)
    (hmem : s ∈ selected) (hrun : st.shard_status s = true) :
    start_parallel_mode groups st selected
      = (st, some "One or more selected shards are already running")
    ∧ ∀ g, (start_parallel_mode groups st selected).1.threads g = st.threads g := by
  have hne : selected.isEmpty = false := by
    cases selected with
    | nil => exact absurd hmem (List.not_mem_nil s)
    | cons a l => rfl
  have hany : selected.any (fun x => st.shard_status x) = true :=
    List.any_eq_true.2 ⟨s, hmem, hrun⟩
  have heq : start_parallel_mode groups st selected
      = (st, some "One or more selected shards are already running") := by
    unfold start_parallel_mode
    simp [hne, hany]
  exact ⟨heq, fun g => by rw [heq]⟩

/-- Claim C7 witness: re-requesting the running shard `s` of the
end-to-end scenario is rejected and keeps its two registered tasks. -/
theorem c7_witness :
    start_parallel_mode groups3 st3_started ["s"]
      = (st3_started, some "One or more selected shards are already running")
    ∧ ∀ g, (start_parallel_mode groups3 st3_started ["s"]).1.threads g
        = st3_started.threads g :=
  c7_start_running_rejected groups3 st3_started ["s"] "s" (by decide) (by decide)

/-! Claim C9. -/

/-- Claim C9: stopping a shard that is not marked running returns
immediately: the state is unchanged — flag still false, thread registry
and every count as before — and no error is signalled. -/
theorem c9_stop_not_running_noop (st : SysState) (s : String)
    (h : st.shard_status s = false) :
    stop_shard st s = st
    ∧ (stop_shard st s).shard_status s = false
    ∧ (∀ g, (stop_shard st s).threads g = st.threads g)
    ∧ (∀ u, (stop_shard st s).message_counts u = st.message_counts u) := by
  have heq : stop_shard st s = st := by
    unfold stop_shard
    simp [h]
  exact ⟨heq, by rw [heq]; exact h, fun g => by rw [heq], fun u => by rw [heq]⟩

/-- Claim C9 witness: stopping the never-started shard `s` in the initial
end-to-end configuration is a no-op. -/
theorem c9_witness :
    stop_shard st3_0 "s" = st3_0
    ∧ (stop_shard st3_0 "s").shard_status "s" = false
    ∧ (∀ g, (stop_shard st3_0 "s").threads g = st3_0.threads g)
    ∧ (∀ u, (stop_shard st3_0 "s").message_counts u = st3_0.message_counts u) :=
  c9_stop_not_running_noop st3_0 "s" rfl

/-! Claim C10. -/

/-- Claim C10: the counts live in one map keyed by URL alone.  Two
delivery units with the same target URL (in particular in different
shards with equal running state) produce identical counts maps in one
iteration; and a successful iteration writes the single shared counter of
its URL, so the rotation sum of every shard whose list contains that URL
grows by its number of occurrences there. -/
theorem c10_counts_keyed_by_url (st : SysState) (t1 t2 : UnitTask)
    (env : Nat → Resp) (hurl : t1.url = t2.url)
    (hstat : st.shard_status t1.shard = st.shard_status t2.shard) :
    (webhook_loop_step st t1 env).message_counts
      = (webhook_loop_step st t2 env).message_counts
    ∧ (loop_guard st t1 = true →
       (send_webhook t1.url (build_payload t1.message t1.username t1.avatar_url)
          env st.max_retries st.rate_limit_backoff st.message_counts).success
            = true →
       (webhook_loop_step st t1 env).message_counts
          = upd st.message_counts t1.url (st.message_counts t1.url + 1)
       ∧ ∀ groups g,
           rotation_sum groups (webhook_loop_step st t1 env) g
             = rotation_sum groups st g + (lookup_urls groups g).count t1.url) := by
  have hg : loop_guard st t1 = loop_guard st t2 := by
    unfold loop_guard
    rw [hurl, hstat]
  constructor
  · unfold webhook_loop_step
    by_cases h2 : loop_guard st t2
    · rw [hg, if_pos h2, if_pos h2]
      show (send_webhook t1.url _ env _ _ _).counts
          = (send_webhook t2.url _ env _ _ _).counts
      rw [send_webhook, send_webhook, hurl]
      exact send_from_counts_payload_irrel t2.url _ _ env _ _ _ 0 _ [] [] [] []
    · rw [hg, if_neg h2, if_neg h2]
  · intro hg1 hs
    have hstep : (webhook_loop_step st t1 env).message_counts
        = upd st.message_counts t1.url (st.message_counts t1.url + 1) := by
      unfold webhook_loop_step
      rw [if_pos hg1]
      show (send_webhook t1.url _ env _ _ _).counts = _
      rw [send_webhook] at hs ⊢
      exact send_from_success_counts t1.url _ env _ _ _ 0 _ [] [] hs
    refine ⟨hstep, fun groups g => ?_⟩
    unfold rotation_sum
    rw [hstep]
    exact sum_map_upd_succ st.message_counts t1.url (lookup_urls groups g)

/-- Claim C10 witness: URL `a` is shared by shards `s1` and `s2`; a
successful iteration of the `s1` unit raises the rotation sum of shard
`s2` through the shared counter. -/
theorem c10_witness :
    rotation_sum groups10 (webhook_loop_step st10 task_s1a env204) "s2"
      = rotation_sum groups10 st10 "s2"
          + (lookup_urls groups10 "s2").count task_s1a.url :=
  (((c10_counts_keyed_by_url st10 task_s1a task_s2a env204 rfl rfl).2
    (by decide) (by decide)).2) groups10 "s2"

/-! Claim C8. -/

/-- Claim C8 counterexample: with shard `s` of the end-to-end scenario
running under cap 3, a `_save_config` that lowers the per-target cap to 0
immediately silences the already-running delivery unit (its next
iteration sends nothing), whereas without the save the same iteration
delivers one message — so the per-target cap is not part of any start-time
snapshot and the claim fails for it (likewise `max_retries` and the
backoff, which are read live from the same runtime fields). -/
theorem c8_counterexample :
    (webhook_loop_step (save_config st3_started cfg_low) task_a env204).message_counts "a"
        = 0
    ∧ (webhook_loop_step st3_started task_a env204).message_counts "a" = 1 :=
  ⟨by decide, by decide⟩

/-- Claim C8 (amended): the payload fields and the delay are an immutable
snapshot — editing the settings variables after start changes neither the
counts effect nor the posted payloads of a running unit's iteration, and
every payload it posts is built from its start-time snapshot — but the
policy values (`max_retries`, backoff, per-target cap) are read live and
are not snapshotted. -/
theorem c8_payload_snapshot (st : SysState) (t : UnitTask) (env : Nat → Resp)
    (m u a : String) (d : ℚ) :
    (webhook_loop_step
        { st with message_var := m, username_var := u, avatar_var := a,
                  delay_var := d } t env).message_counts
      = (webhook_loop_step st t env).message_counts
    ∧ cycle_posts
        { st with message_var := m, username_var := u, avatar_var := a,
                  delay_var := d } t env
      = cycle_posts st t env
    ∧ cycle_posts st t env
      = List.replicate (cycle_posts st t env).length
          (build_payload t.message t.username t.avatar_url) := by
  have hg : loop_guard
      { st with message_var := m, username_var := u, avatar_var := a,
                delay_var := d } t = loop_guard st t := rfl
  refine ⟨?_, ?_, ?_⟩
  · unfold webhook_loop_step
    rw [hg]
    by_cases hgd : loop_guard st t
    · rw [if_pos hgd, if_pos hgd]
    · rw [if_neg hgd, if_neg hgd]
  · unfold cycle_posts
    rw [hg]
  have hall : ∀ q ∈ cycle_posts st t env,
      q = build_payload t.message t.username t.avatar_url := by
    unfold cycle_posts
    by_cases hgd : loop_guard st t
    · rw [if_pos hgd, send_webhook]
      exact send_from_posts_mem _ _ env _ _ _ 0 _ [] []
        (fun q hq => absurd hq (List.not_mem_nil q))
    · rw [if_neg hgd]
      exact fun q hq => absurd hq (List.not_mem_nil q)
  exact List.eq_replicate_of_mem hall

/-! Claim C6. -/

/-- A parallel start request never changes the counts map. -/
theorem start_parallel_counts (groups : List (String × List String))
    (st : SysState) (sel : List String) :
    (start_parallel_mode groups st sel).1.message_counts = st.message_counts := by
  unfold start_parallel_mode
  by_cases h1 : sel.isEmpty
  · simp [h1]
  · by_cases h2 : sel.any (fun s => st.shard_status s)
    · simp [h1, h2]
    · simp [h1, h2, foldl_start_counts]

/-- A parallel stop request never changes the counts map. -/
theorem stop_parallel_counts (st : SysState) (sel : List String) :
    (stop_parallel_mode st sel).1.message_counts = st.message_counts := by
  unfold stop_parallel_mode
  by_cases h2 : sel.any (fun s => st.shard_status s)
  · simp [h2, foldl_stop_counts]
  · simp [h2]

/-- A sequential start request never changes the counts map. -/
theorem start_seq_counts (groups : List (String × List String))
    (st : SysState) (s : String) :
    (start_sequential_mode groups st s).1.message_counts = st.message_counts := by
  unfold start_sequential_mode
  by_cases h1 : any_running groups st
  · simp [h1]
  · by_cases h2 : s = ""
    · simp [h1, h2]
    · simp only [h1, h2, Bool.false_eq_true, if_false, if_neg h2]
      exact start_shard_counts groups _ s

/-- A sequential stop request never changes the counts map. -/
theorem stop_seq_counts (st : SysState) :
    (stop_sequential_mode st).1.message_counts = st.message_counts := by
  unfold stop_sequential_mode
  rcases hc : st.current_switch_shard with _ | cur
  · rfl
  · by_cases h1 : st.shard_status cur
    · simp only [h1, if_true]
      exact stop_shard_counts st cur
    · simp [h1]

/-- Claim C6: per-target counts are monotone under every operation of the
interface; start and stop leave them exactly unchanged; an iteration in
which no attempt succeeds leaves them exactly unchanged (counts grow only
on a 204); and a loop iteration never pushes a count past the live
per-target cap. -/
theorem c6_counts_monotone (groups : List (String × List String)) (op : Op)
    (st : SysState) (u : String) :
    st.message_counts u ≤ (apply_op groups op st).message_counts u
    ∧ (∀ s, (apply_op groups (Op.start_shard_op s) st).message_counts u
        = st.message_counts u)
    ∧ (∀ s, (apply_op groups (Op.stop_shard_op s) st).message_counts u
        = st.message_counts u)
    ∧ (∀ (t : UnitTask) (env : Nat → Resp), (∀ i, env i ≠ Resp.success) →
        (apply_op groups (Op.cycle t env) st).message_counts u
          = st.message_counts u)
    ∧ (∀ (t : UnitTask) (env : Nat → Resp),
        st.message_counts u ≤ st.message_limit →
        (apply_op groups (Op.cycle t env) st).message_counts u
          ≤ st.message_limit) := by
  have hcy : ∀ (t : UnitTask) (env : Nat → Resp),
      st.message_counts u ≤ (webhook_loop_step st t env).message_counts u := by
    intro t env
    unfold webhook_loop_step
    by_cases hgd : loop_guard st t
    · rw [if_pos hgd]
      exact send_counts_mono t.url _ env _ _ _ u
    · rw [if_neg hgd]
  refine ⟨?_, ?_, ?_, ?_, ?_⟩
  · cases op with
    | start_shard_op s =>
      show st.message_counts u ≤ (start_shard groups st s).message_counts u
      rw [start_shard_counts]
    | stop_shard_op s =>
      show st.message_counts u ≤ (stop_shard st s).message_counts u
      rw [stop_shard_counts]
    | start_parallel sel =>
      show st.message_counts u ≤ (start_parallel_mode groups st sel).1.message_counts u
      rw [start_parallel_counts]
    | stop_parallel sel =>
      show st.message_counts u ≤ (stop_parallel_mode st sel).1.message_counts u
      rw [stop_parallel_counts]
    | start_seq s =>
      show st.message_counts u ≤ (start_sequential_mode groups st s).1.message_counts u
      rw [start_seq_counts]
    | stop_seq =>
      show st.message_counts u ≤ (stop_sequential_mode st).1.message_counts u
      rw [stop_seq_counts]
    | monitor =>
      show st.message_counts u ≤ (monitor_sequential_step groups st).message_counts u
      rw [monitor_counts]
    | cycle t env => exact hcy t env
    | save cfg => exact Nat.le_refl _
  · intro s
    show (start_shard groups st s).message_counts u = st.message_counts u
    rw [start_shard_counts]
  · intro s
    show (stop_shard st s).message_counts u = st.message_counts u
    rw [stop_shard_counts]
  · intro t env hno
    show (webhook_loop_step st t env).message_counts u = st.message_counts u
    unfold webhook_loop_step
    by_cases hgd : loop_guard st t
    · rw [if_pos hgd]
      show (send_webhook t.url _ env _ _ _).counts u = _
      rw [send_webhook,
        (send_from_no_success t.url _ env _ _ hno _ 0 _ [] []).2]
    · rw [if_neg hgd]
  · intro t env hle
    show (webhook_loop_step st t env).message_counts u ≤ st.message_limit
    unfold webhook_loop_step
    by_cases hgd : loop_guard st t
    · rw [if_pos hgd]
      have hlt : st.message_counts t.url < st.message_limit := by
        have hgd2 := hgd
        simp [loop_guard] at hgd2
        exact hgd2.2
      show (send_webhook t.url _ env _ _ _).counts u ≤ _
      rcases send_from_counts_cases t.url
          (build_payload t.message t.username t.avatar_url) env st.max_retries
          st.rate_limit_backoff st.max_retries 0 st.message_counts [] [] with h | h
      · rw [send_webhook, h]
        exact hle
      · rw [send_webhook, h]
        by_cases hu : u = t.url
        · subst hu
          rw [upd_same]
          exact hlt
        · rw [upd_other _ _ _ _ hu]
          exact hle
    · rw [if_neg hgd]
      exact hle

/-- Claim C6 witness: in the running end-to-end scenario a failing
iteration leaves the count of `a` unchanged and a successful iteration
respects the cap. -/
theorem c6_witness :
    (apply_op groups3 (Op.cycle task_a env_fail) st3_started).message_counts "a"
        = st3_started.message_counts "a"
    ∧ (apply_op groups3 (Op.cycle task_a env204) st3_started).message_counts "a"
        ≤ st3_started.message_limit :=
  ⟨(c6_counts_monotone groups3 (Op.cycle task_a env_fail) st3_started "a").2.2.2.1
      task_a env_fail (fun i => by simp [env_fail]),
   (c6_counts_monotone groups3 (Op.cycle task_a env204) st3_started "a").2.2.2.2
      task_a env204 (by decide)⟩

/-! Claim C4. -/

/-- Claim C4: in Sequential mode the at-most-one-running invariant (all
set flags belong to shards of the map, and no two distinct shards are
flagged) is preserved by every sequential-mode operation — in particular
the monitor hand-off, which clears the active shard's flag before setting
the successor's — and a sequential start request is rejected with the
"already running" warning, with the state unchanged, whenever any shard
of the map is running. -/
theorem c4_sequential_at_most_one (groups : List (String × List String))
    (op : SeqOp) (st : SysState) (hinv : SeqInv groups st)
    (hop : seq_op_ok groups op) :
    SeqInv groups (apply_seq_op groups op st)
    ∧ (∀ s, any_running groups st = true →
        start_sequential_mode groups st s
          = (st, some "A shard is already running")) := by
  obtain ⟨hog, hamo⟩ := hinv
  have hreject : ∀ s, any_running groups st = true →
      start_sequential_mode groups st s
        = (st, some "A shard is already running") := by
    intro s h
    unfold start_sequential_mode
    simp [h]
  refine ⟨?_, hreject⟩
  cases op with
  | start_seq s =>
    show SeqInv groups (start_sequential_mode groups st s).1
    by_cases h1 : any_running groups st
    · rw [hreject s h1]
      exact ⟨hog, hamo⟩
    · by_cases h2 : s = ""
      · unfold start_sequential_mode
        simp only [h1, Bool.false_eq_true, if_false, if_pos h2]
        exact ⟨hog, hamo⟩
      · have hnone : ∀ x, st.shard_status x ≠ true := by
          intro x hx
          have hmemx := hog x hx
          have hrun : any_running groups st = true := by
            unfold any_running
            exact List.any_eq_true.2 ⟨x, hmemx, hx⟩
          exact h1 hrun
        have heq : (start_sequential_mode groups st s).1
            = start_shard groups
                { st with current_switch_shard := some s } s := by
          unfold start_sequential_mode
          simp [h1, h2]
        rw [heq]
        constructor
        · intro x hx
          rw [start_shard_status] at hx
          by_cases hxs : x = s
          · subst hxs
            exact hop
          · rw [upd_other _ _ _ _ hxs] at hx
            exact absurd hx (hnone x)
        · intro x y hx hy
          rw [start_shard_status] at hx hy
          by_cases hxs : x = s
          · by_cases hys : y = s
            · rw [hxs, hys]
            · rw [upd_other _ _ _ _ hys] at hy
              exact absurd hy (hnone y)
          · rw [upd_other _ _ _ _ hxs] at hx
            exact absurd hx (hnone x)
  | stop_seq =>
    show SeqInv groups (stop_sequential_mode st).1
    unfold stop_sequential_mode
    rcases hc : st.current_switch_shard with _ | cur
    · exact ⟨hog, hamo⟩
    · by_cases h1 : st.shard_status cur
      · simp only [h1, if_true]
        constructor
        · intro x hx
          have hx2 : (stop_shard st cur).shard_status x = true := hx
          rw [stop_shard_status_of_run st cur h1] at hx2
          by_cases hxc : x = cur
          · subst hxc
            rw [upd_same] at hx2
            exact absurd hx2 (by simp)
          · rw [upd_other _ _ _ _ hxc] at hx2
            exact hog x hx2
        · intro x y hx hy
          have hx2 : (stop_shard st cur).shard_status x = true := hx
          have hy2 : (stop_shard st cur).shard_status y = true := hy
          rw [stop_shard_status_of_run st cur h1] at hx2 hy2
          by_cases hxc : x = cur
          · subst hxc
            rw [upd_same] at hx2
            exact absurd hx2 (by simp)
          · by_cases hyc : y = cur
            · subst hyc
              rw [upd_same] at hy2
              exact absurd hy2 (by simp)
            · rw [upd_other _ _ _ _ hxc] at hx2
              rw [upd_other _ _ _ _ hyc] at hy2
              exact hamo x y hx2 hy2
      · simp only [h1, Bool.false_eq_true, if_false]
        exact ⟨hog, hamo⟩
  | monitor =>
    show SeqInv groups (monitor_sequential_step groups st)
    unfold monitor_sequential_step
    rcases hc : st.current_switch_shard with _ | cur
    · exact ⟨hog, hamo⟩
    · by_cases h1 : st.shard_status cur
      · by_cases h2 : st.total_pings ≤ rotation_sum groups st cur
        · simp only [h1, h2, if_true]
          have hkey : ∀ z,
              (start_shard groups
                { stop_shard st cur with
                    current_switch_shard := some (next_shard groups cur) }
                (next_shard groups cur)).shard_status z = true →
              z = next_shard groups cur := by
            intro z hz
            rw [start_shard_status] at hz
            by_cases hzn : z = next_shard groups cur
            · exact hzn
            · exfalso
              rw [upd_other _ _ _ _ hzn] at hz
              have hz2 : (stop_shard st cur).shard_status z = true := hz
              rw [stop_shard_status_of_run st cur h1] at hz2
              by_cases hzc : z = cur
              · subst hzc
                rw [upd_same] at hz2
                exact absurd hz2 (by simp)
              · rw [upd_other _ _ _ _ hzc] at hz2
                exact hzc (hamo z cur hz2 h1)
          constructor
          · intro x hx
            rw [hkey x hx]
            exact next_shard_mem groups cur (hog cur h1)
          · intro x y hx hy
            rw [hkey x hx, hkey y hy]
        · simp only [h2, if_false]
          split
          · exact ⟨hog, hamo⟩
          · exact ⟨hog, hamo⟩
      · simp only [h1, Bool.false_eq_true, if_false]
        exact ⟨hog, hamo⟩
  | cycle t env =>
    show SeqInv groups (webhook_loop_step st t env)
    constructor
    · intro x hx
      rw [webhook_loop_step_status] at hx
      exact hog x hx
    · intro x y hx hy
      rw [webhook_loop_step_status] at hx hy
      exact hamo x y hx hy
  | save cfg =>
    exact ⟨hog, hamo⟩

/-- Claim C4 witness: a monitor hand-off from shard `A` (running, at the
threshold) preserves the invariant, and any sequential start request
against the running state is rejected unchanged. -/
theorem c4_witness :
    SeqInv groups2 (apply_seq_op groups2 SeqOp.monitor st5)
    ∧ (∀ s, any_running groups2 st5 = true →
        start_sequential_mode groups2 st5 s
          = (st5, some "A shard is already running")) :=
  c4_sequential_at_most_one groups2 SeqOp.monitor st5
    ⟨by
        intro s hs
        have hs2 : s = "A" := by simpa [st5] using hs
        subst hs2
        simp [groups2],
      by
        intro x y hx hy
        have hx2 : x = "A" := by simpa [st5] using hx
        have hy2 : y = "A" := by simpa [st5] using hy
        rw [hx2, hy2]⟩
    trivial
